import Mathlib

/-!
# Shallow embedding of the ionMath generic vector/matrix library

This file embeds the core of the `ion_math` Rust crate in Lean 4 and proves
(or refutes) the specification's claims about it.

Modelling conventions:
* The generic scalar type parameter `T : Copy + Num + NumCast + PartialOrd`
  is embedded as a type `α` with the corresponding algebraic/order type
  classes (only the operations each function actually uses are required).
* `f32` values flowing through lerp's intermediate computation are embedded
  as exact rationals `ℚ`; the `to_f32`/`T::from` numeric casts are embedded
  as explicit cast functions `toF : α → ℚ` and `fromF : ℚ → α` (the source
  `unwrap`s these casts, i.e. assumes they succeed, which the total cast
  functions model).
* A `NumCast` conversion whose `unwrap` may panic (`T::from (-1).unwrap ()`
  in the Vec3 direction presets) is embedded as an `Option`-valued cast:
  `none` models the panic.
* `f32::sqrt` (used only through `length`) is embedded as an uninterpreted
  function `sqrt : α → α`; theorems that need arithmetic facts about square
  roots take them as hypotheses at the used values.
-/

namespace IonMath

/-- `util::clamp` from `src/util.rs` (also the blanket `Clamp` impl in
`src/util/clamp.rs`): `if value < min {min} else if value > max {max} else {value}`.
The `debug_assert!(min < max)` precondition appears as a hypothesis of the
theorems that use it, not in the definition (it is a no-op check). -/
def clamp {α : Type} [LinearOrder α] (value min max : α) : α :=
  if value < min then min else if value > max then max else value

/-- `util::lerp` from `src/util.rs` (same formula as the blanket
`Lerp::lerp` impl in `src/util/lerp.rs`):
`T::from ((start + (end - start)).to_f32 ().unwrap () * clamp (percentage, 0.0, 1.0)).unwrap ()`.
Note the source multiplies the already-summed `(start + (end - start))`
by the clamped percentage. -/
def lerp {α : Type} [Ring α] (toF : α → ℚ) (fromF : ℚ → α)
    (start «end» : α) (percentage : ℚ) : α :=
  fromF (toF (start + («end» - start)) * clamp percentage 0 1)

/-- Blanket `Lerp::lerp_unclamped` impl from `src/util/lerp.rs`:
`T::from ((start + (end - start)).to_f32 ().unwrap () * percentage).unwrap ()`. -/
def lerp_unclamped {α : Type} [Ring α] (toF : α → ℚ) (fromF : ℚ → α)
    (start «end» : α) (percentage : ℚ) : α :=
  fromF (toF (start + («end» - start)) * percentage)

/-- The generic `Vec2` struct from `src/vector/vec2.rs`: components `x, y`
of one scalar type. -/
structure Vec2 (α : Type) where
  x : α
  y : α
deriving DecidableEq, Repr

/-- The generic `Vec3` struct from `src/vector/vec3.rs`: components `x, y, z`. -/
structure Vec3 (α : Type) where
  x : α
  y : α
  z : α
deriving DecidableEq, Repr

/-- The generic `Vec4` struct from `src/vector/vec4.rs`: components `x, y, z, w`. -/
structure Vec4 (α : Type) where
  x : α
  y : α
  z : α
  w : α
deriving DecidableEq, Repr

/-- `Vec2::zero` (`Vec2::from (T::zero ())`, broadcasting the scalar zero). -/
def Vec2.zero {α : Type} [Zero α] : Vec2 α := ⟨0, 0⟩

/-- `Vec3::zero` (`Vec3::from (T::zero ())`). -/
def Vec3.zero {α : Type} [Zero α] : Vec3 α := ⟨0, 0, 0⟩

/-- `Vec4::zero` (`VecTrait::zero` for `Vec4`). -/
def Vec4.zero {α : Type} [Zero α] : Vec4 α := ⟨0, 0, 0, 0⟩

/-- Component-wise `Add` for `Vec4` (`src/vector/vec4.rs`). -/
def Vec4.add {α : Type} [Add α] (a b : Vec4 α) : Vec4 α :=
  ⟨a.x + b.x, a.y + b.y, a.z + b.z, a.w + b.w⟩

/-- Component-wise `Sub` for `Vec4` (`src/vector/vec4.rs`). -/
def Vec4.sub {α : Type} [Sub α] (a b : Vec4 α) : Vec4 α :=
  ⟨a.x - b.x, a.y - b.y, a.z - b.z, a.w - b.w⟩

/-- `Mul<V>` for `Vec4` (vector times broadcast scalar, `src/vector/vec4.rs`). -/
def Vec4.mulScalar {α : Type} [Mul α] (v : Vec4 α) (s : α) : Vec4 α :=
  ⟨v.x * s, v.y * s, v.z * s, v.w * s⟩

/-- `From<&Vec4<U>> for Vec4<V>` (`src/vector/vec4.rs`): component-wise
numeric cast, embedded as mapping an explicit cast function. -/
def Vec4.map {α β : Type} (f : α → β) (v : Vec4 α) : Vec4 β :=
  ⟨f v.x, f v.y, f v.z, f v.w⟩

/-- `Lerp::lerp` for `Vec4` (`src/vector/vec4.rs`):
`(&(Vec4f::from (&(start + (end - start))) * percentage.clamp (0.0, 1.0))).into ()`.
`toF`/`fromF` embed the `Vec4f::from` / `.into ()` component casts. -/
def Vec4.lerp {α : Type} [Add α] [Sub α] (toF : α → ℚ) (fromF : ℚ → α)
    (start «end» : Vec4 α) (percentage : ℚ) : Vec4 α :=
  Vec4.map fromF (Vec4.mulScalar (Vec4.map toF (start.add («end».sub start)))
    (clamp percentage 0 1))

/-- `Lerp::lerp_unclamped` for `Vec4` (`src/vector/vec4.rs`): the source body
is identical to `lerp`, including `percentage.clamp (0.0, 1.0)`. -/
def Vec4.lerp_unclamped {α : Type} [Add α] [Sub α] (toF : α → ℚ) (fromF : ℚ → α)
    (start «end» : Vec4 α) (percentage : ℚ) : Vec4 α :=
  Vec4.map fromF (Vec4.mulScalar (Vec4.map toF (start.add («end».sub start)))
    (clamp percentage 0 1))

/-- `Vec2` `VecTraitF::length`: `(x*x + y*y).sqrt ()`, with `sqrt` an
explicit function parameter embedding `f32::sqrt`. -/
def Vec2.length {α : Type} [Mul α] [Add α] (sqrt : α → α) (v : Vec2 α) : α :=
  sqrt (v.x * v.x + v.y * v.y)

/-- `Vec3` `VecTraitF::length`: `(x*x + y*y + z*z).sqrt ()`. -/
def Vec3.length {α : Type} [Mul α] [Add α] (sqrt : α → α) (v : Vec3 α) : α :=
  sqrt (v.x * v.x + v.y * v.y + v.z * v.z)

/-- `Vec4` `VecTraitF::length`: `(x*x + y*y + z*z + w*w).sqrt ()`. -/
def Vec4.length {α : Type} [Mul α] [Add α] (sqrt : α → α) (v : Vec4 α) : α :=
  sqrt (v.x * v.x + v.y * v.y + v.z * v.z + v.w * v.w)

/-- `Vec2` `VecTraitF::normalize` (`src/vector/vec2.rs`): computes the
length, divides each component by it when the length is not zero, and
returns `Vec2::zero ()` otherwise. -/
def Vec2.normalize {α : Type} [Mul α] [Add α] [Div α] [Zero α] [DecidableEq α]
    (sqrt : α → α) (v : Vec2 α) : Vec2 α :=
  let length := v.length sqrt
  if length ≠ 0 then ⟨v.x / length, v.y / length⟩ else Vec2.zero

/-- `Vec3` `VecTraitF::normalize` (`src/vector/vec3.rs`). -/
def Vec3.normalize {α : Type} [Mul α] [Add α] [Div α] [Zero α] [DecidableEq α]
    (sqrt : α → α) (v : Vec3 α) : Vec3 α :=
  let length := v.length sqrt
  if length ≠ 0 then ⟨v.x / length, v.y / length, v.z / length⟩ else Vec3.zero

/-- `Vec4` `VecTraitF::normalize` (`src/vector/vec4.rs`). -/
def Vec4.normalize {α : Type} [Mul α] [Add α] [Div α] [Zero α] [DecidableEq α]
    (sqrt : α → α) (v : Vec4 α) : Vec4 α :=
  let length := v.length sqrt
  if length ≠ 0 then ⟨v.x / length, v.y / length, v.z / length, v.w / length⟩
  else Vec4.zero

/-- `Vec3::cross` (`src/vector/vec3.rs`):
`((y1*z2 - z1*y2), (z1*x2 - x1*z2), (x1*y2 - y1*x2))`. -/
def Vec3.cross {α : Type} [Mul α] [Sub α] (v rhs : Vec3 α) : Vec3 α :=
  ⟨(v.y * rhs.z) - (v.z * rhs.y),
   (v.z * rhs.x) - (v.x * rhs.z),
   (v.x * rhs.y) - (v.y * rhs.x)⟩

/-- `From<&Vec2<U>> for Vec3<T>` (`src/vector/vec3.rs`) at the same scalar
type (`T::from` on the same numeric type is the identity): copies `x, y`
and fills `z` with `T::zero ()`. -/
def Vec3.fromVec2 {α : Type} [Zero α] (v : Vec2 α) : Vec3 α :=
  ⟨v.x, v.y, 0⟩

/-- `From<&Vec3<U>> for Vec2<V>` (`src/vector/vec2.rs`) at the same scalar
type: copies `x, y`, dropping `z`. -/
def Vec2.fromVec3 {α : Type} (v : Vec3 α) : Vec2 α :=
  ⟨v.x, v.y⟩

/-- The `NumCast` conversion `i32::from (n : ℤ)` (as used when the scalar
type is `i32`): succeeds exactly on the 32-bit signed range. -/
def i32from (n : ℤ) : Option ℤ :=
  if -(2 ^ 31) ≤ n ∧ n < 2 ^ 31 then some n else none

/-- The `NumCast` conversion `u32::from (n : ℤ)` (as used when the scalar
type is `u32`): succeeds exactly on the 32-bit unsigned range; negative
inputs yield `none` (the source's `.unwrap ()` then panics). -/
def u32from (n : ℤ) : Option ℕ :=
  if 0 ≤ n ∧ n < 2 ^ 32 then some n.toNat else none

/-- `Vec3::down` (`src/vector/vec3.rs`):
`Vec3::new (T::zero (), T::from (-1).unwrap (), T::zero ())`; the `Option`
result models the `unwrap` (`none` = panic). -/
def Vec3.down {α : Type} [Zero α] (tFrom : ℤ → Option α) : Option (Vec3 α) :=
  match tFrom (-1) with
  | some m => some ⟨0, m, 0⟩
  | none => none

/-- `Vec3::left` (`src/vector/vec3.rs`):
`Vec3::new (T::from (-1).unwrap (), T::zero (), T::zero ())`. -/
def Vec3.left {α : Type} [Zero α] (tFrom : ℤ → Option α) : Option (Vec3 α) :=
  match tFrom (-1) with
  | some m => some ⟨m, 0, 0⟩
  | none => none

/-- `Vec3::back` (`src/vector/vec3.rs`):
`Vec3::new (T::zero (), T::zero (), T::from (-1).unwrap ())`. -/
def Vec3.back {α : Type} [Zero α] (tFrom : ℤ → Option α) : Option (Vec3 α) :=
  match tFrom (-1) with
  | some m => some ⟨0, 0, m⟩
  | none => none

/-- `Index<u8>` for `Vec3` (`src/vector/vec3.rs`): `0 => x, 1 => y, 2 => z`;
the source's out-of-range `unreachable!` branch is ruled out by `Fin 3`. -/
def Vec3.nth {α : Type} (v : Vec3 α) : Fin 3 → α
  | 0 => v.x
  | 1 => v.y
  | 2 => v.z

/-- `Index<u8>` for `Vec4` (`src/vector/vec4.rs`): `0 => x, 1 => y, 2 => z, 3 => w`. -/
def Vec4.nth {α : Type} (v : Vec4 α) : Fin 4 → α
  | 0 => v.x
  | 1 => v.y
  | 2 => v.z
  | 3 => v.w

/-- The generic `Mat3` struct from `src/matrix/mat3.rs`: a private array of
3 row vectors (row-major). -/
structure Mat3 (α : Type) where
  r0 : Vec3 α
  r1 : Vec3 α
  r2 : Vec3 α
deriving DecidableEq, Repr

/-- The generic `Mat4` struct from `src/matrix/mat4.rs`: 4 row vectors. -/
structure Mat4 (α : Type) where
  r0 : Vec4 α
  r1 : Vec4 α
  r2 : Vec4 α
  r3 : Vec4 α
deriving DecidableEq, Repr

/-- `Index<u8>` for `Mat3` (`src/matrix/mat3.rs`): `matrix[i]` is row `i`. -/
def Mat3.row {α : Type} (m : Mat3 α) : Fin 3 → Vec3 α
  | 0 => m.r0
  | 1 => m.r1
  | 2 => m.r2

/-- `Index<u8>` for `Mat4` (`src/matrix/mat4.rs`). -/
def Mat4.row {α : Type} (m : Mat4 α) : Fin 4 → Vec4 α
  | 0 => m.r0
  | 1 => m.r1
  | 2 => m.r2
  | 3 => m.r3

/-- The chained index `matrix[i][j]`: scalar at row `i`, column `j`. -/
def Mat3.entry {α : Type} (m : Mat3 α) (r c : Fin 3) : α :=
  (m.row r).nth c

/-- The chained index `matrix[i][j]` for `Mat4`. -/
def Mat4.entry {α : Type} (m : Mat4 α) (r c : Fin 4) : α :=
  (m.row r).nth c

/-- One cell of the `Mul for Mat3` triple loop (`src/matrix/mat3.rs`): the
result starts from `Mat3::from (0)` (all cells zero) and the inner loop runs
`m[row][col] += self[row][inner] * rhs[inner][col]` for `inner in 0..3`,
i.e. a left-to-right accumulation from `0` over `inner = 0, 1, 2`. -/
def Mat3.mulEntry {α : Type} [Mul α] [Add α] [Zero α] (a b : Mat3 α)
    (r c : Fin 3) : α :=
  List.foldl (fun acc inner => acc + a.entry r inner * b.entry inner c) 0 [0, 1, 2]

/-- `Mul for Mat3` (`src/matrix/mat3.rs`): each cell of the result is
accumulated independently by the triple loop. -/
def Mat3.mul {α : Type} [Mul α] [Add α] [Zero α] (a b : Mat3 α) : Mat3 α :=
  ⟨⟨Mat3.mulEntry a b 0 0, Mat3.mulEntry a b 0 1, Mat3.mulEntry a b 0 2⟩,
   ⟨Mat3.mulEntry a b 1 0, Mat3.mulEntry a b 1 1, Mat3.mulEntry a b 1 2⟩,
   ⟨Mat3.mulEntry a b 2 0, Mat3.mulEntry a b 2 1, Mat3.mulEntry a b 2 2⟩⟩

/-- One cell of the `Mul for Mat4` triple loop (`src/matrix/mat4.rs`):
`inner` runs over the full `0..4`. -/
def Mat4.mulEntry {α : Type} [Mul α] [Add α] [Zero α] (a b : Mat4 α)
    (r c : Fin 4) : α :=
  List.foldl (fun acc inner => acc + a.entry r inner * b.entry inner c) 0
    [0, 1, 2, 3]

/-- `Mul for Mat4` (`src/matrix/mat4.rs`). -/
def Mat4.mul {α : Type} [Mul α] [Add α] [Zero α] (a b : Mat4 α) : Mat4 α :=
  ⟨⟨Mat4.mulEntry a b 0 0, Mat4.mulEntry a b 0 1, Mat4.mulEntry a b 0 2, Mat4.mulEntry a b 0 3⟩,
   ⟨Mat4.mulEntry a b 1 0, Mat4.mulEntry a b 1 1, Mat4.mulEntry a b 1 2, Mat4.mulEntry a b 1 3⟩,
   ⟨Mat4.mulEntry a b 2 0, Mat4.mulEntry a b 2 1, Mat4.mulEntry a b 2 2, Mat4.mulEntry a b 2 3⟩,
   ⟨Mat4.mulEntry a b 3 0, Mat4.mulEntry a b 3 1, Mat4.mulEntry a b 3 2, Mat4.mulEntry a b 3 3⟩⟩

/-- `MatTrait::identity` for `Mat3` (`src/matrix/mat3.rs`):
`Mat3::new (1, 0, 0, 0, 1, 0, 0, 0, 1)` — the `i32` literals are numeric-cast
into the scalar type (`T::from (1).unwrap () = 1`, `T::from (0).unwrap () = 0`). -/
def Mat3.identity {α : Type} [Zero α] [One α] : Mat3 α :=
  ⟨⟨1, 0, 0⟩, ⟨0, 1, 0⟩, ⟨0, 0, 1⟩⟩

/-- `MatTrait::identity` for `Mat4` (`src/matrix/mat4.rs`). -/
def Mat4.identity {α : Type} [Zero α] [One α] : Mat4 α :=
  ⟨⟨1, 0, 0, 0⟩, ⟨0, 1, 0, 0⟩, ⟨0, 0, 1, 0⟩, ⟨0, 0, 0, 1⟩⟩

/-- Claim C1, divergence witness: the spec says `lerp (start, end, 0.0) == start`
exactly for all start/end, but the source computes
`(start + (end - start)) * clamp t 0 1`, i.e. `end * clamp t 0 1`; at
`start = 2, end = 6, t = 0` (casts are the identity, the scalar being the
float type itself) the code returns `0`, not `start = 2`. -/
theorem lerp_drops_start_at_t_zero :
    lerp (id : ℚ → ℚ) id 2 6 0 = 0 ∧ (0 : ℚ) ≠ 2 := by
  constructor
  · norm_num [lerp, clamp]
  · norm_num

/-- Claim C2, divergence witness: the spec says `lerp_unclamped (start, end, t)`
equals `start + (end - start) * t` and applies `t` verbatim. The scalar
blanket impl computes `end * t` (at `start = 2, end = 6, t = 2` it returns
`12`, not `10`), and `Vec4`'s `lerp_unclamped` clamps `t` into `[0, 1]`
(same inputs broadcast: it returns `(6,6,6,6)`, not `(10,10,10,10)`). -/
theorem lerp_unclamped_diverges_from_linear :
    lerp_unclamped (id : ℚ → ℚ) id 2 6 2 = 12 ∧
    (12 : ℚ) ≠ 2 + (6 - 2) * 2 ∧
    Vec4.lerp_unclamped (id : ℚ → ℚ) id ⟨2, 2, 2, 2⟩ ⟨6, 6, 6, 6⟩ 2 =
      ⟨6, 6, 6, 6⟩ ∧
    Vec4.mk (6 : ℚ) 6 6 6 ≠ ⟨2 + (6 - 2) * 2, 2 + (6 - 2) * 2,
      2 + (6 - 2) * 2, 2 + (6 - 2) * 2⟩ := by
  refine ⟨by norm_num [lerp_unclamped], by norm_num, ?_, by norm_num⟩
  norm_num [Vec4.lerp_unclamped, Vec4.map, Vec4.mulScalar, Vec4.add, Vec4.sub,
    clamp]

/-- Claim C3: for `Mat3` and `Mat4` over any scalar supporting accumulation,
each cell of `A * B` is `Σ_inner A[row][inner] * B[inner][col]`, accumulated
left-to-right over the full `0..N-1`. -/
theorem mat_mul_entry_formula {α : Type} [NonUnitalNonAssocSemiring α] :
    (∀ (a b : Mat3 α) (r c : Fin 3),
      (a.mul b).entry r c =
        a.entry r 0 * b.entry 0 c + a.entry r 1 * b.entry 1 c +
          a.entry r 2 * b.entry 2 c) ∧
    (∀ (a b : Mat4 α) (r c : Fin 4),
      (a.mul b).entry r c =
        a.entry r 0 * b.entry 0 c + a.entry r 1 * b.entry 1 c +
          a.entry r 2 * b.entry 2 c + a.entry r 3 * b.entry 3 c) := by
  constructor
  · intro a b r c
    fin_cases r <;> fin_cases c <;>
      simp [Mat3.mul, Mat3.mulEntry, Mat3.entry, Mat3.row, Vec3.nth,
        List.foldl]
  · intro a b r c
    fin_cases r <;> fin_cases c <;>
      simp [Mat4.mul, Mat4.mulEntry, Mat4.entry, Mat4.row, Vec4.nth,
        List.foldl]

/-- Claim C4: `identity () * M == M` and `M * identity () == M` for every
`Mat3` and `Mat4` over any numeric scalar; in particular
`Mat3::identity () * Mat3::identity () == Mat3::identity ()`. -/
theorem identity_mul_law {α : Type} [NonAssocSemiring α] :
    (∀ M : Mat3 α, Mat3.mul Mat3.identity M = M ∧ Mat3.mul M Mat3.identity = M) ∧
    (∀ M : Mat4 α, Mat4.mul Mat4.identity M = M ∧ Mat4.mul M Mat4.identity = M) ∧
    Mat3.mul Mat3.identity Mat3.identity = (Mat3.identity : Mat3 α) := by
  have h3 : ∀ M : Mat3 α,
      Mat3.mul Mat3.identity M = M ∧ Mat3.mul M Mat3.identity = M := by
    intro M
    obtain ⟨⟨a, b, c⟩, ⟨d, e, f⟩, ⟨g, h, i⟩⟩ := M
    constructor <;>
      simp [Mat3.mul, Mat3.mulEntry, Mat3.entry, Mat3.row, Vec3.nth,
        Mat3.identity, List.foldl]
  refine ⟨h3, ?_, (h3 Mat3.identity).1⟩
  intro M
  obtain ⟨⟨a, b, c, d⟩, ⟨e, f, g, h⟩, ⟨i, j, k, l⟩, ⟨m, n, o, p⟩⟩ := M
  constructor <;>
    simp [Mat4.mul, Mat4.mulEntry, Mat4.entry, Mat4.row, Vec4.nth,
      Mat4.identity, List.foldl]

/-- Claim C5: for `Vec2`/`Vec3`/`Vec4` over a floating scalar (embedded as a
field with an uninterpreted `sqrt`), `normalize` of a vector of length
exactly zero returns the zero vector; for a vector of nonzero length it
divides each component by the length, and — given that `sqrt` behaves as a
square root at the relevant values — the normalized vector has length `1`. -/
theorem normalize_spec {α : Type} [Field α] [DecidableEq α] (sqrt : α → α) :
    (Vec2.normalize sqrt Vec2.zero = Vec2.zero ∧
     Vec3.normalize sqrt Vec3.zero = Vec3.zero ∧
     Vec4.normalize sqrt Vec4.zero = Vec4.zero) ∧
    ((∀ v : Vec2 α, v.length sqrt ≠ 0 →
        v.normalize sqrt = ⟨v.x / v.length sqrt, v.y / v.length sqrt⟩) ∧
     (∀ v : Vec3 α, v.length sqrt ≠ 0 →
        v.normalize sqrt =
          ⟨v.x / v.length sqrt, v.y / v.length sqrt, v.z / v.length sqrt⟩) ∧
     (∀ v : Vec4 α, v.length sqrt ≠ 0 →
        v.normalize sqrt =
          ⟨v.x / v.length sqrt, v.y / v.length sqrt, v.z / v.length sqrt,
           v.w / v.length sqrt⟩)) ∧
    ((∀ v : Vec2 α, sqrt 1 = 1 →
        sqrt (v.x * v.x + v.y * v.y) * sqrt (v.x * v.x + v.y * v.y) =
          v.x * v.x + v.y * v.y →
        v.length sqrt ≠ 0 → (v.normalize sqrt).length sqrt = 1) ∧
     (∀ v : Vec3 α, sqrt 1 = 1 →
        sqrt (v.x * v.x + v.y * v.y + v.z * v.z) *
            sqrt (v.x * v.x + v.y * v.y + v.z * v.z) =
          v.x * v.x + v.y * v.y + v.z * v.z →
        v.length sqrt ≠ 0 → (v.normalize sqrt).length sqrt = 1) ∧
     (∀ v : Vec4 α, sqrt 1 = 1 →
        sqrt (v.x * v.x + v.y * v.y + v.z * v.z + v.w * v.w) *
            sqrt (v.x * v.x + v.y * v.y + v.z * v.z + v.w * v.w) =
          v.x * v.x + v.y * v.y + v.z * v.z + v.w * v.w →
        v.length sqrt ≠ 0 → (v.normalize sqrt).length sqrt = 1)) := by
  refine ⟨⟨?_, ?_, ?_⟩, ⟨?_, ?_, ?_⟩, ⟨?_, ?_, ?_⟩⟩
  · simp [Vec2.normalize, Vec2.length, Vec2.zero, zero_div]
  · simp [Vec3.normalize, Vec3.length, Vec3.zero, zero_div]
  · simp [Vec4.normalize, Vec4.length, Vec4.zero, zero_div]
  · intro v h; simp [Vec2.normalize, Vec2.length, Vec2.length] at h ⊢; simp [h]
  · intro v h; simp [Vec3.normalize, Vec3.length] at h ⊢; simp [h]
  · intro v h; simp [Vec4.normalize, Vec4.length] at h ⊢; simp [h]
  · intro v h1 hsq hL
    have hL' : sqrt (v.x * v.x + v.y * v.y) ≠ 0 := hL
    have hS : v.x * v.x + v.y * v.y ≠ 0 := by
      intro h0
      exact hL' (mul_self_eq_zero.mp (by rw [hsq, h0]))
    have hnorm : v.normalize sqrt =
        ⟨v.x / sqrt (v.x * v.x + v.y * v.y),
         v.y / sqrt (v.x * v.x + v.y * v.y)⟩ := by
      simp [Vec2.normalize, Vec2.length, hL']
    rw [hnorm]
    show sqrt _ = 1
    have key : v.x / sqrt (v.x * v.x + v.y * v.y) *
          (v.x / sqrt (v.x * v.x + v.y * v.y)) +
        v.y / sqrt (v.x * v.x + v.y * v.y) *
          (v.y / sqrt (v.x * v.x + v.y * v.y)) =
        (v.x * v.x + v.y * v.y) /
          (sqrt (v.x * v.x + v.y * v.y) * sqrt (v.x * v.x + v.y * v.y)) := by
      ring
    rw [key, hsq, div_self hS, h1]
  · intro v h1 hsq hL
    have hL' : sqrt (v.x * v.x + v.y * v.y + v.z * v.z) ≠ 0 := hL
    have hS : v.x * v.x + v.y * v.y + v.z * v.z ≠ 0 := by
      intro h0
      exact hL' (mul_self_eq_zero.mp (by rw [hsq, h0]))
    have hnorm : v.normalize sqrt =
        ⟨v.x / sqrt (v.x * v.x + v.y * v.y + v.z * v.z),
         v.y / sqrt (v.x * v.x + v.y * v.y + v.z * v.z),
         v.z / sqrt (v.x * v.x + v.y * v.y + v.z * v.z)⟩ := by
      simp [Vec3.normalize, Vec3.length, hL']
    rw [hnorm]
    show sqrt _ = 1
    have key : ∀ L : α, L ≠ 0 →
        v.x / L * (v.x / L) + v.y / L * (v.y / L) + v.z / L * (v.z / L) =
          (v.x * v.x + v.y * v.y + v.z * v.z) / (L * L) := by
      intro L _; ring
    rw [key _ hL', hsq, div_self hS, h1]
  · intro v h1 hsq hL
    have hL' : sqrt (v.x * v.x + v.y * v.y + v.z * v.z + v.w * v.w) ≠ 0 := hL
    have hS : v.x * v.x + v.y * v.y + v.z * v.z + v.w * v.w ≠ 0 := by
      intro h0
      exact hL' (mul_self_eq_zero.mp (by rw [hsq, h0]))
    have hnorm : v.normalize sqrt =
        ⟨v.x / sqrt (v.x * v.x + v.y * v.y + v.z * v.z + v.w * v.w),
         v.y / sqrt (v.x * v.x + v.y * v.y + v.z * v.z + v.w * v.w),
         v.z / sqrt (v.x * v.x + v.y * v.y + v.z * v.z + v.w * v.w),
         v.w / sqrt (v.x * v.x + v.y * v.y + v.z * v.z + v.w * v.w)⟩ := by
      simp [Vec4.normalize, Vec4.length, hL']
    rw [hnorm]
    show sqrt _ = 1
    have key : ∀ L : α, L ≠ 0 →
        v.x / L * (v.x / L) + v.y / L * (v.y / L) + v.z / L * (v.z / L) +
            v.w / L * (v.w / L) =
          (v.x * v.x + v.y * v.y + v.z * v.z + v.w * v.w) / (L * L) := by
      intro L _; ring
    rw [key _ hL', hsq, div_self hS, h1]

/-- A concrete square-root table on `ℚ` used to instantiate the hypotheses
of `normalize_spec` at the vector `(3, 4)`. -/
def sqrtQ (q : ℚ) : ℚ :=
  if q = 25 then 5 else if q = 1 then 1 else 0

theorem normalize_spec_witness :
    sqrtQ 1 = 1 ∧
    sqrtQ ((3 : ℚ) * 3 + 4 * 4) * sqrtQ ((3 : ℚ) * 3 + 4 * 4) =
      (3 : ℚ) * 3 + 4 * 4 ∧
    Vec2.length sqrtQ ⟨(3 : ℚ), 4⟩ ≠ 0 ∧
    (Vec2.normalize sqrtQ ⟨(3 : ℚ), 4⟩).length sqrtQ = 1 :=
  ⟨by norm_num [sqrtQ], by norm_num [sqrtQ],
   by norm_num [Vec2.length, sqrtQ],
   (normalize_spec sqrtQ).2.2.1 ⟨3, 4⟩ (by norm_num [sqrtQ])
     (by norm_num [sqrtQ]) (by norm_num [Vec2.length, sqrtQ])⟩

/-- Claim C6: under the precondition `min < max`, `clamp (value, min, max)`
returns `min` when `value < min`, `max` when `value > max`, and `value`
otherwise; concretely `clamp (15, 0, 10) = 10`, `clamp (-5, 0, 10) = 0`,
`clamp (5, 0, 10) = 5`. -/
theorem clamp_spec {α : Type} [LinearOrder α] (value min max : α)
    (h : min < max) :
    (value < min → clamp value min max = min) ∧
    (value > max → clamp value min max = max) ∧
    (min ≤ value → value ≤ max → clamp value min max = value) ∧
    clamp (15 : ℤ) 0 10 = 10 ∧ clamp (-5 : ℤ) 0 10 = 0 ∧
    clamp (5 : ℤ) 0 10 = 5 := by
  refine ⟨?_, ?_, ?_, by decide, by decide, by decide⟩
  · intro hv
    simp [clamp, hv]
  · intro hv
    have hnot : ¬ value < min := not_lt.mpr (le_of_lt (lt_trans h hv))
    simp [clamp, hnot, hv]
  · intro h1 h2
    have hnot : ¬ value < min := not_lt.mpr h1
    have hnot2 : ¬ value > max := not_lt.mpr h2
    simp [clamp, hnot, hnot2]

theorem clamp_spec_witness :
    (0 : ℤ) < 10 ∧ (15 : ℤ) > 10 ∧ clamp (15 : ℤ) 0 10 = 10 :=
  ⟨by decide, by decide, (clamp_spec (15 : ℤ) 0 10 (by decide)).2.1 (by decide)⟩

/-- Claim C7: for every pair of `Vec3` vectors, `cross` is
`(y1*z2 - z1*y2, z1*x2 - x1*z2, x1*y2 - y1*x2)`; in particular
`(1,0,0) × (0,1,0) = (0,0,1)`. -/
theorem cross_spec {α : Type} [Ring α] :
    (∀ a b : Vec3 α, a.cross b =
      ⟨a.y * b.z - a.z * b.y, a.z * b.x - a.x * b.z, a.x * b.y - a.y * b.x⟩) ∧
    Vec3.cross ⟨(1 : ℤ), 0, 0⟩ ⟨0, 1, 0⟩ = ⟨0, 0, 1⟩ :=
  ⟨fun _ _ => rfl, by decide⟩

/-- Claim C8: `Vec2 → Vec3` copies `x, y` and fills `z` with zero,
`Vec3 → Vec2` drops `z`, and the round trip `Vec2 → Vec3 → Vec2` is the
identity, for every `Vec2`. -/
theorem vec2_vec3_roundtrip {α : Type} [Zero α] :
    (∀ v : Vec2 α, Vec3.fromVec2 v = ⟨v.x, v.y, 0⟩) ∧
    (∀ v : Vec3 α, Vec2.fromVec3 v = ⟨v.x, v.y⟩) ∧
    (∀ v : Vec2 α, Vec2.fromVec3 (Vec3.fromVec2 v) = v) := by
  refine ⟨fun v => rfl, fun v => rfl, fun v => ?_⟩
  cases v
  rfl

/-- Claim C9: `Vec4`'s `lerp_unclamped` returns exactly the same result as
`Vec4`'s `lerp` on every input (both clamp the percentage into `[0, 1]`). -/
theorem vec4_lerp_unclamped_eq_lerp {α : Type} [Add α] [Sub α]
    (toF : α → ℚ) (fromF : ℚ → α) (start «end» : Vec4 α) (percentage : ℚ) :
    Vec4.lerp_unclamped toF fromF start «end» percentage =
      Vec4.lerp toF fromF start «end» percentage :=
  rfl

/-- Claim C10: `Vec3::down`, `left`, and `back` build their `-1` component
by numeric-casting the integer `-1` into the scalar type and unwrapping:
when the cast succeeds with value `m` they return `(0, m, 0)`, `(m, 0, 0)`,
`(0, 0, m)`; when `-1` is not representable the unwrap panics (`none`).
Concretely, at scalar `i32` they return `(0,-1,0)`, `(-1,0,0)`, `(0,0,-1)`,
and at scalar `u32` all three panic. -/
theorem vec3_direction_presets {α : Type} [Zero α] (tFrom : ℤ → Option α) :
    (∀ m : α, tFrom (-1) = some m →
      Vec3.down tFrom = some ⟨0, m, 0⟩ ∧
      Vec3.left tFrom = some ⟨m, 0, 0⟩ ∧
      Vec3.back tFrom = some ⟨0, 0, m⟩) ∧
    (tFrom (-1) = none →
      Vec3.down tFrom = none ∧ Vec3.left tFrom = none ∧
      Vec3.back tFrom = none) ∧
    (Vec3.down i32from = some ⟨0, -1, 0⟩ ∧
     Vec3.left i32from = some ⟨-1, 0, 0⟩ ∧
     Vec3.back i32from = some ⟨0, 0, -1⟩) ∧
    (Vec3.down u32from = none ∧ Vec3.left u32from = none ∧
     Vec3.back u32from = none) := by
  refine ⟨?_, ?_, ?_, ?_⟩
  · intro m hm
    simp [Vec3.down, Vec3.left, Vec3.back, hm]
  · intro hm
    simp [Vec3.down, Vec3.left, Vec3.back, hm]
  · refine ⟨?_, ?_, ?_⟩ <;> norm_num [Vec3.down, Vec3.left, Vec3.back, i32from]
  · refine ⟨?_, ?_, ?_⟩ <;> norm_num [Vec3.down, Vec3.left, Vec3.back, u32from]

theorem vec3_direction_presets_witness :
    (i32from (-1) = some (-1) ∧
      (Vec3.down i32from = some ⟨0, -1, 0⟩ ∧
       Vec3.left i32from = some ⟨-1, 0, 0⟩ ∧
       Vec3.back i32from = some ⟨0, 0, -1⟩)) ∧
    (u32from (-1) = none ∧
      (Vec3.down u32from = none ∧ Vec3.left u32from = none ∧
       Vec3.back u32from = none)) :=
  ⟨⟨by norm_num [i32from],
    (vec3_direction_presets i32from).1 (-1) (by norm_num [i32from])⟩,
   ⟨by norm_num [u32from],
    (vec3_direction_presets u32from).2.1 (by norm_num [u32from])⟩⟩

end IonMath
